import Mathlib

/-!
Verification development for the EventPulse repository.

The Python sources `src/extract_events.py` and `src/analyzer.py` are embedded
shallowly: a spreadsheet sheet is a 2D grid of cells, pandas dataframes are
lists of records, numeric values are exact rationals, and fallible operations
return `Option`/`Except`.  Conventions used throughout:

* Python floats are modelled by `ℚ`; decimal literals such as `0.3` denote the
  exact rational, while Python uses binary floating point.  None of the
  verified statements depend on values where the two differ.
* `round(x, n)` is modelled with Mathlib `round` (half away from zero upward);
  Python rounds halves to even.  No verified statement evaluates `round` at an
  exact half-way point, so the two agree on every value involved.
* Division by zero yields `0` on `ℚ`, whereas numpy produces `inf`/`nan`.  No
  verified statement exercises a zero denominator.
* `np.sqrt` is not rational-valued, so the analyzer is parametrised by a
  function `f : ℚ → ℚ` standing for `np.sqrt` applied to the (rational)
  variance; theorems assume only that `f` is nonnegative on nonnegative
  arguments, which is true of `np.sqrt` on the values it receives.
-/

/-- One spreadsheet cell: empty (NaN), text, numeric, or a date value
(dates are abstracted to an ordinal number). -/
inductive Cell where
  | empty : Cell
  | str (s : String) : Cell
  | num (q : ℚ) : Cell
  | date (d : Nat) : Cell
deriving DecidableEq, Repr

/-- Bool test whether `pat` occurs as a contiguous sublist of `l`
(Python `pat in s` on strings). -/
def strContainsAux (pat : List Char) : List Char → Bool
  | [] => pat.isEmpty
  | c :: rest => pat.isPrefixOf (c :: rest) || strContainsAux pat rest

/-- Python `pat in s` substring test. -/
def strContains (s pat : String) : Bool :=
  strContainsAux pat.data s.data

/-- Python `s.upper()`, character by character (the labels matched by the
extractor are ASCII, where the two agree). -/
def strUpper (s : String) : String :=
  ⟨s.data.map Char.toUpper⟩

/-- Python `s.lower()`, character by character. -/
def strLower (s : String) : String :=
  ⟨s.data.map Char.toLower⟩

/-- Python `str(cell) if pd.notna(cell) else ''` as used by the extractor
label checks.  A numeric or date cell renders in Python as a string of
digits, signs, dots, dashes, colons and spaces; none of the textual patterns
the extractor searches for ("TOTAL", "RSVP", "Raw Tickets", "Overall Total",
"Event", "NaN", "Event Date", demographic keywords) can occur in such a
rendering, so numeric and date cells are modelled as the empty string, which
matches exactly the same set of patterns (none). -/
def cellStr : Cell → String
  | Cell.empty => ""
  | Cell.str s => s
  | Cell.num _ => ""
  | Cell.date _ => ""

/-- Python truthiness of a cell value (only ever applied to non-NaN values in
the source; NaN is truthy in Python, hence `true` for `empty`). -/
def cellTruthy : Cell → Bool
  | Cell.empty => true
  | Cell.str s => !s.isEmpty
  | Cell.num q => q ≠ 0
  | Cell.date _ => true

/-- Python `int()` truncation toward zero of a rational. -/
def pyInt (q : ℚ) : ℤ :=
  Int.tdiv q.num (q.den : ℤ)

/-- Python `int(cell)`: numeric values truncate toward zero, decimal strings
parse, anything else raises (`none`). -/
def cellInt : Cell → Option ℤ
  | Cell.num q => some (pyInt q)
  | Cell.str s => s.toInt?
  | Cell.date _ => none
  | Cell.empty => none

/-- Shorthand for a numeric cell holding an integer value. -/
def iCell (n : ℤ) : Cell := Cell.num (n : ℚ)

/-! ## Budget extraction (`extract_budget_data`, extract_events.py lines 11-38) -/

/-- First numeric cell with value strictly greater than 100 in the window of
cells to the right of a budget label (the `for k in range(j+1, min(j+5, ...))`
loop body). -/
def firstBudgetVal : List Cell → Option ℚ
  | [] => none
  | Cell.num q :: rest => if 100 < q then some q else firstBudgetVal rest
  | _ :: rest => firstBudgetVal rest

/-- Label test `'Overall Total' in cell or 'TOTAL' in cell.upper()`. -/
def isBudgetLabel (c : Cell) : Bool :=
  strContains (cellStr c) "Overall Total" || strContains (strUpper (cellStr c)) "TOTAL"

/-- Scan one row of the Budget sheet: at each label cell, look at the next 4
cells for the first numeric value exceeding 100; a label with no qualifying
value does not stop the scan. -/
def budgetRowScan : List Cell → Option ℚ
  | [] => none
  | c :: rest =>
    if isBudgetLabel c then
      match firstBudgetVal (rest.take 4) with
      | some v => some v
      | none => budgetRowScan rest
    else budgetRowScan rest

/-- `extract_budget_data`: row-major scan; once a total is found no further
cells are considered (the `if total_cost: break` exits both loops). -/
def extract_budget_data (g : List (List Cell)) : Option ℚ :=
  g.foldl
    (fun acc row =>
      match acc with
      | some v => some v
      | none => budgetRowScan row)
    none

/-! ## Demographics extraction (`extract_demographics`, lines 41-80) -/

/-- Counters for the fixed demographic category set. -/
structure Demographics where
  freshman : ℕ
  sophomore : ℕ
  junior : ℕ
  senior : ℕ
  graduate : ℕ
  alumni : ℕ
  other : ℕ
deriving DecidableEq, Repr

/-- Sum of all category counters (`sum(demographics.values())`). -/
def demTotal (d : Demographics) : ℕ :=
  d.freshman + d.sophomore + d.junior + d.senior + d.graduate + d.alumni + d.other

/-- The all-zero counter dictionary the scan starts from. -/
def demInit : Demographics :=
  { freshman := 0, sophomore := 0, junior := 0, senior := 0
    graduate := 0, alumni := 0, other := 0 }

/-- Per-cell classification: lower-case the cell text and increment the first
matching category (`if`/`elif` chain, lines 60-71).  No branch increments
`other`. -/
def demoStep (d : Demographics) (c : Cell) : Demographics :=
  let v := strLower (cellStr c)
  if strContains v "freshman" then { d with freshman := d.freshman + 1 }
  else if strContains v "sophmore" || strContains v "sophomore" then
    { d with sophomore := d.sophomore + 1 }
  else if strContains v "junior" then { d with junior := d.junior + 1 }
  else if strContains v "senior" then { d with senior := d.senior + 1 }
  else if strContains v "graduate" || strContains v "grad" ||
      strContains v "masters" || strContains v "phd" then
    { d with graduate := d.graduate + 1 }
  else if strContains v "alumni" then { d with alumni := d.alumni + 1 }
  else d

/-- Row-major scan of the Attendee Data sheet. -/
def demoScanGrid (g : List (List Cell)) : Demographics :=
  g.foldl (fun d row => row.foldl demoStep d) demInit

/-- `extract_demographics`: scan every cell in row-major order, then discard
the result unless the summed counts exceed 5. -/
def extract_demographics (g : List (List Cell)) : Option Demographics :=
  if 5 < demTotal (demoScanGrid g) then some (demoScanGrid g) else none

/-! ## RSVP attendance extraction (`extract_event_from_workbook`, lines 117-142)

The scan keeps a state `(registered, attended)`.  An `int()` conversion of a
non-numeric cell raises; the surrounding `try`/`except` then abandons the rest
of the scan, keeping the values assigned so far.  This is modelled with
`Except St St`, where `Except.error` carries the state at the moment of the
raise. -/

/-- State of the RSVP scan: optional registered and attended counts. -/
abbrev RsvpSt := Option ℤ × Option ℤ

/-- Extract the two cells to the right of a matching label: the first (when
present and non-NaN) becomes `registered`, the second `attended`.  Each
assignment happens independently, and a failing `int()` raises with whatever
was assigned up to that point. -/
def applyRight (rest : List Cell) (st : RsvpSt) : Except RsvpSt RsvpSt :=
  let st1 : Except RsvpSt RsvpSt :=
    match rest with
    | [] => Except.ok st
    | c1 :: _ =>
      if c1 = Cell.empty then Except.ok st
      else
        match cellInt c1 with
        | some n => Except.ok (some n, st.2)
        | none => Except.error st
  match st1 with
  | Except.error s => Except.error s
  | Except.ok s1 =>
    match rest.drop 1 with
    | [] => Except.ok s1
    | c2 :: _ =>
      if c2 = Cell.empty then Except.ok s1
      else
        match cellInt c2 with
        | some m => Except.ok (s1.1, some m)
        | none => Except.error s1

/-- Per-cell step: the TOTAL/RSVP rule fires first, then the Raw Tickets rule
on the same cell (so in a single cell matching both, Raw Tickets wins). -/
def rsvpStep (c : Cell) (rest : List Cell) (st : RsvpSt) : Except RsvpSt RsvpSt :=
  let s := cellStr c
  let afterTotal : Except RsvpSt RsvpSt :=
    if strContains (strUpper s) "TOTAL" && strContains (strUpper s) "RSVP" then
      applyRight rest st
    else Except.ok st
  match afterTotal with
  | Except.error st1 => Except.error st1
  | Except.ok st1 =>
    if strContains s "Raw Tickets" then applyRight rest st1 else Except.ok st1

/-- Scan the cells of one row left to right. -/
def rsvpRow : List Cell → RsvpSt → Except RsvpSt RsvpSt
  | [], st => Except.ok st
  | c :: rest, st =>
    match rsvpStep c rest st with
    | Except.error st1 => Except.error st1
    | Except.ok st1 => rsvpRow rest st1

/-- Scan the rows top to bottom. -/
def rsvpSheet : List (List Cell) → RsvpSt → Except RsvpSt RsvpSt
  | [], st => Except.ok st
  | row :: rows, st =>
    match rsvpRow row st with
    | Except.error st1 => Except.error st1
    | Except.ok st1 => rsvpSheet rows st1

/-- Full RSVP Snapshot scan; a raise is swallowed by the `except` clause,
keeping the values assigned before it. -/
def scanRSVP (g : List (List Cell)) : RsvpSt :=
  match rsvpSheet g (none, none) with
  | Except.ok st => st
  | Except.error st => st

/-! ## Overview sheet: event name and date (lines 83-115) -/

/-- A qualifying name cell: a text cell of more than 3 characters whose text
contains neither `"Event"` nor `"NaN"` (lines 93-99). -/
def nameCandidate : Cell → Option String
  | Cell.str s =>
    if 3 < s.length && !strContains s "Event" && !strContains s "NaN" then some s
    else none
  | _ => none

/-- Event-name recovery: first qualifying cell in the first 5 rows and first
3 columns, row-major order. -/
def extract_event_name (ov : List (List Cell)) : Option String :=
  ((ov.take 5).map (fun row => row.take 3)).foldl
    (fun acc row =>
      match acc with
      | some n => some n
      | none => row.foldl
          (fun a c =>
            match a with
            | some n => some n
            | none => nameCandidate c)
          none)
    none

/-- Scan one row for the event date (lines 104-115).  `prevStr` is
`str(overview.iloc[i, j-1])` (the empty string at column 0).  A date-typed
cell is taken directly; otherwise a cell whose left neighbour's text contains
"Event Date" is taken.  Both assignments `break` out of the row; the returned
Bool is the truthiness of the assigned value, which decides whether the outer
loop also stops. -/
def dateScanRow (prevStr : String) (acc : Option Cell) :
    List Cell → Option Cell × Bool
  | [] => (acc, false)
  | c :: rest =>
    if c = Cell.empty then dateScanRow (cellStr c) acc rest
    else
      match c with
      | Cell.date d => (some (Cell.date d), true)
      | _ =>
        if strContains prevStr "Event Date" then (some c, cellTruthy c)
        else dateScanRow (cellStr c) acc rest

/-- Event-date recovery over the whole Overview sheet; a falsy assigned value
does not stop the outer loop and may be overwritten by a later row. -/
def extract_event_date (ov : List (List Cell)) : Option Cell :=
  (ov.foldl
    (fun st row => if st.2 then st else dateScanRow "" st.1 row)
    ((none, false) : Option Cell × Bool)).1

/-! ## Per-workbook extraction and the dataset (lines 150-218) -/

/-- One source workbook: its four named sheets, each possibly unreadable. -/
structure Workbook where
  overview : Option (List (List Cell))
  rsvp : Option (List (List Cell))
  budget : Option (List (List Cell))
  attendee : Option (List (List Cell))
deriving Repr

/-- The record returned by `extract_event_from_workbook`. -/
structure EventData where
  name : Option String
  date : Option Cell
  expected : Option ℤ
  actual : Option ℤ
  budget : Option ℚ
  demographics : Option Demographics
deriving DecidableEq, Repr

/-- `extract_event_from_workbook`: an unreadable Overview sheet aborts the
whole workbook (outer `except`, line 159); an unreadable RSVP, Budget or
Attendee Data sheet only leaves the corresponding fields absent. -/
def extract_event_from_workbook (w : Workbook) : Option EventData :=
  match w.overview with
  | none => none
  | some ov =>
    some
      { name := extract_event_name ov
        date := extract_event_date ov
        expected := (match w.rsvp with | none => none | some g => (scanRSVP g).1)
        actual := (match w.rsvp with | none => none | some g => (scanRSVP g).2)
        budget := (match w.budget with | none => none | some g => extract_budget_data g)
        demographics :=
          (match w.attendee with | none => none | some g => extract_demographics g) }

/-- Bool test whether any of the patterns occurs in the string. -/
def anyContains (s : String) (pats : List String) : Bool :=
  pats.any (fun p => strContains s p)

/-- `determine_event_type` (lines 164-186). -/
def determine_event_type (name : Option String) : String :=
  match name with
  | none => "Other"
  | some n =>
    let low := strLower n
    if anyContains low ["garba", "diwali", "holi", "navratri"] then "Cultural Festival"
    else if anyContains low ["bollywood", "blackout", "mehndi", "sangeet"] then "Cultural Show"
    else if anyContains low ["formal", "dinner", "banquet", "gala"] then "Formal"
    else if anyContains low ["sima", "matchmaking", "dating"] then "Social"
    else if anyContains low ["workshop", "career", "professional", "networking"] then "Professional"
    else if anyContains low ["sports", "cricket", "volleyball", "tournament"] then "Sports"
    else if anyContains low ["welcome", "freshers", "orientation"] then "Welcome"
    else "Cultural"

/-- An extracted event together with its classified type. -/
structure TypedEvent where
  data : EventData
  etype : String
deriving DecidableEq, Repr

/-- `extract_all_events` (lines 189-218): a workbook contributes an event only
when extraction succeeded and the recovered name is truthy (a non-empty
string); every other workbook is skipped. -/
def extract_all_events (ws : List Workbook) : List TypedEvent :=
  ws.filterMap
    (fun w =>
      match extract_event_from_workbook w with
      | none => none
      | some ed =>
        match ed.name with
        | none => none
        | some n =>
          if n.isEmpty then none
          else some { data := ed, etype := determine_event_type (some n) })

/-! ## Analyzer data model (`src/analyzer.py`)

A row of the compiled Events sheet.  Dates are ISO `YYYY-MM-DD` strings, whose
lexicographic order coincides with chronological order, matching both the
`strftime('%Y-%m-%d')` formatting in the source and the sort key used by the
growth computation. -/

structure EventRow where
  name : String
  date : String
  etype : String
  expected : ℤ
  actual : ℤ
  budget : Option ℚ
deriving DecidableEq, Repr, Inhabited

/-- One entry of `summary['events']` (lines 115-130). -/
structure EventDetail where
  name : String
  etype : String
  date : String
  expected : ℤ
  actual : ℤ
  attendance_rate : ℚ
  budget : Option ℚ
  cost_per_attendee : Option ℚ
deriving DecidableEq, Repr, Inhabited

/-- The value returned by `calculate_engagement_score` (lines 245-249), with
the breakdown dictionary flattened into named fields. -/
structure EngagementResult where
  score : ℚ
  grade : String
  attendance : ℚ
  consistency : ℚ
  growth : ℚ
  efficiency : ℚ
deriving DecidableEq, Repr, Inhabited

/-- The summary dictionary built by `prepare_data_summary` (lines 76-142).
Optional fields are present exactly when the corresponding `if` branch of the
source runs.  `engagement_score` is `none` on the partially built dictionary
passed to `calculate_engagement_score` and filled afterwards. -/
structure Summary where
  total_events : ℕ
  date_min : String
  date_max : String
  event_types : List (String × ℕ)
  avg_attendance : ℚ
  total_attendees : ℤ
  total_registered : ℤ
  attendance_rate : ℚ
  total_budget : Option ℚ
  avg_budget_per_event : Option ℚ
  cost_per_attendee : Option ℚ
  avg_cost_per_attendee : Option ℚ
  best_performing_event : String
  highest_attendance : ℤ
  best_conversion_event : String
  best_conversion_rate : ℚ
  events : List EventDetail
  demographics : Option (List (String × ℤ))
  engagement_score : Option EngagementResult
deriving DecidableEq, Repr, Inhabited

/-- Python `round(x, 1)`. -/
def round1 (q : ℚ) : ℚ := (round (q * 10) : ℚ) / 10

/-- Python `round(x, 2)`. -/
def round2 (q : ℚ) : ℚ := (round (q * 100) : ℚ) / 100

/-- Python `round(x, 0)`. -/
def round0 (q : ℚ) : ℚ := (round q : ℚ)

/-- Mean of a list of rationals (`np.mean`; division by zero never reached on
the nonempty lists the source applies it to). -/
def listMeanQ (l : List ℚ) : ℚ := l.sum / (l.length : ℚ)

/-- Population variance (`np.std` squared): mean squared deviation. -/
def varianceQ (l : List ℚ) : ℚ :=
  listMeanQ (l.map (fun x => (x - listMeanQ l) ^ 2))

/-- First element attaining the maximum of `f` (pandas `idxmax` keeps the
first occurrence of the maximum). -/
def argmaxFirst (f : α → ℚ) : List α → Option α
  | [] => none
  | x :: xs => some (xs.foldl (fun best y => if f best < f y then y else best) x)

/-- Maximum of a list of integers (`Series.max`; 0 never reached, the source
only applies it to nonempty data). -/
def listMaxZ : List ℤ → ℤ
  | [] => 0
  | x :: xs => xs.foldl max x

/-- Minimum of a list of integers (`Series.min`). -/
def listMinZ : List ℤ → ℤ
  | [] => 0
  | x :: xs => xs.foldl min x

/-- Lexicographic minimum of a list of strings (`Series.min` on dates). -/
def listMinS : List String → String
  | [] => ""
  | x :: xs => xs.foldl min x

/-- Lexicographic maximum of a list of strings (`Series.max` on dates). -/
def listMaxS : List String → String
  | [] => ""
  | x :: xs => xs.foldl max x

/-- Insert an event after every already-placed event whose date is not
greater, keeping the insertion stable like Python `sorted`. -/
def insertByDate (e : EventDetail) : List EventDetail → List EventDetail
  | [] => [e]
  | x :: xs => if x.date ≤ e.date then x :: insertByDate e xs else e :: x :: xs

/-- Stable sort of the event detail list by date
(`sorted(summary['events'], key=lambda x: x['date'])`, line 184). -/
def sortByDate (l : List EventDetail) : List EventDetail :=
  l.foldl (fun acc e => insertByDate e acc) []

/-! ## Engagement score components (`calculate_engagement_score`, lines 144-249) -/

/-- Attendance component (lines 155-165), 40 points cap. -/
def attendance_component (r : ℚ) : ℚ :=
  if 85 ≤ r then 40
  else if 75 ≤ r then 30 + (r - 75) * 1
  else if 65 ≤ r then 20 + (r - 65) * 1
  else max 0 (r * 0.3)

/-- Consistency component (lines 169-180): `f` models `np.sqrt`, so
`f (varianceQ rates)` is the standard deviation of the rates. -/
def consistency_component (f : ℚ → ℚ) (rates : List ℚ) : ℚ :=
  if 1 < rates.length then max 0 (20 - f (varianceQ rates)) else 15

/-- Growth comparison of the first-half and second-half mean attendance
(lines 190-195): `favg` and `savg` are the two means. -/
def growth_from_avgs (favg savg : ℚ) : ℚ :=
  if favg ≤ savg then
    min 20 (10 + (if 0 < favg then (savg - favg) / favg * 100 else 0) * 0.5)
  else
    max 0 (10 - (favg - savg) / favg * 100 * 0.5)

/-- Growth component (lines 182-200) on the date-sorted event list: split at
`len // 2` and compare the mean actual attendance of the two halves. -/
def growth_component (sorted : List EventDetail) : ℚ :=
  if 2 ≤ sorted.length then
    growth_from_avgs
      (listMeanQ ((sorted.take (sorted.length / 2)).map (fun e => (e.actual : ℚ))))
      (listMeanQ ((sorted.drop (sorted.length / 2)).map (fun e => (e.actual : ℚ))))
  else 10

/-- Efficiency component for a positive cost per attendee (lines 205-215). -/
def efficiency_component (cpa : ℚ) : ℚ :=
  if cpa ≤ 3 then 20
  else if cpa ≤ 5 then 18
  else if cpa ≤ 10 then 15
  else if cpa ≤ 20 then 10
  else max 0 (20 - cpa * 0.3)

/-- Grade thresholds (lines 223-243), inclusive lower bounds. -/
def determine_grade (score : ℚ) : String :=
  if 90 ≤ score then "A+"
  else if 85 ≤ score then "A"
  else if 80 ≤ score then "A-"
  else if 75 ≤ score then "B+"
  else if 70 ≤ score then "B"
  else if 65 ≤ score then "B-"
  else if 60 ≤ score then "C+"
  else if 55 ≤ score then "C"
  else if 50 ≤ score then "C-"
  else "D"

/-- The attendance addend of the score (line 157 reads the summary's rounded
overall attendance rate). -/
def attendance_score (s : Summary) : ℚ :=
  attendance_component s.attendance_rate

/-- The consistency addend of the score (line 171 reads the per-event
rounded rates from `summary['events']`). -/
def consistency_score (f : ℚ → ℚ) (s : Summary) : ℚ :=
  consistency_component f (s.events.map (fun e => e.attendance_rate))

/-- The growth addend of the score (line 184 sorts `summary['events']` by
date). -/
def growth_score (s : Summary) : ℚ :=
  growth_component (sortByDate s.events)

/-- The efficiency addend of the score (line 203: the branch runs only when
`cost_per_attendee` is present and positive, otherwise the fixed 12). -/
def efficiency_score (s : Summary) : ℚ :=
  match s.cost_per_attendee with
  | some cpa => if 0 < cpa then efficiency_component cpa else 12
  | none => 12

/-- `calculate_engagement_score(df, summary)`: the `df` parameter is unused by
the body, which reads only `summary`; the returned score is the unclamped sum
of the four components rounded to one decimal, and the grade is computed from
the unrounded sum. -/
def calculate_engagement_score (f : ℚ → ℚ) (s : Summary) : EngagementResult :=
  let total := attendance_score s + consistency_score f s + growth_score s + efficiency_score s
  { score := round1 total
    grade := determine_grade total
    attendance := round1 (attendance_score s)
    consistency := round1 (consistency_score f s)
    growth := round1 (growth_score s)
    efficiency := round1 (efficiency_score s) }

/-! ## Summary assembly (`prepare_data_summary`, lines 76-142) -/

/-- Distinct event types in order of first appearance
(`Series.unique` preserves first-appearance order). -/
def uniqueTypes (df : List EventRow) : List String :=
  df.foldl (fun acc e => if acc.contains e.etype then acc else acc ++ [e.etype]) []

/-- The per-event detail entry (lines 117-128). -/
def eventDetailOf (e : EventRow) : EventDetail :=
  { name := e.name
    etype := e.etype
    date := e.date
    expected := e.expected
    actual := e.actual
    attendance_rate := round1 ((e.actual : ℚ) / (e.expected : ℚ) * 100)
    budget := e.budget.map round2
    cost_per_attendee := e.budget.map (fun b => round2 (b / (e.actual : ℚ))) }

/-- The summary dictionary for a nonempty dataframe.  `event_types` is
modelled in first-appearance order; pandas `value_counts` orders the same
mapping by descending count, a presentation difference no verified statement
depends on.  `selfDemographics` is the engine-level demographics loaded
alongside the dataset (an empty mapping is falsy in Python and skipped). -/
def buildSummary (f : ℚ → ℚ) (selfDemographics : Option (List (String × ℤ)))
    (df : List EventRow) : Summary :=
  let actuals := df.map (fun e => e.actual)
  let totalAttendees := actuals.sum
  let totalRegistered := (df.map (fun e => e.expected)).sum
  let budgets := df.filterMap (fun e => e.budget)
  let totalBudgetRaw := budgets.sum
  let hasBudget := !budgets.isEmpty
  let withBudget := df.filter (fun e => e.budget.isSome)
  let details := df.map eventDetailOf
  let bestRow := (argmaxFirst (fun e => (e.actual : ℚ)) df).getD default
  let convRate := fun (e : EventRow) => (e.actual : ℚ) / (e.expected : ℚ) * 100
  let bestConvRow := (argmaxFirst convRate df).getD default
  let s0 : Summary :=
    { total_events := df.length
      date_min := listMinS (df.map (fun e => e.date))
      date_max := listMaxS (df.map (fun e => e.date))
      event_types :=
        (uniqueTypes df).map
          (fun t => (t, (df.filter (fun e => e.etype = t)).length))
      avg_attendance := round1 ((totalAttendees : ℚ) / (df.length : ℚ))
      total_attendees := totalAttendees
      total_registered := totalRegistered
      attendance_rate := round1 ((totalAttendees : ℚ) / (totalRegistered : ℚ) * 100)
      total_budget := if hasBudget then some (round2 totalBudgetRaw) else none
      avg_budget_per_event :=
        if hasBudget then some (round2 (totalBudgetRaw / (df.length : ℚ))) else none
      cost_per_attendee :=
        if hasBudget then some (round2 (totalBudgetRaw / (totalAttendees : ℚ))) else none
      avg_cost_per_attendee :=
        if hasBudget then
          some (round2 (totalBudgetRaw / (((withBudget.map (fun e => e.actual)).sum : ℤ) : ℚ)))
        else none
      best_performing_event := bestRow.name
      highest_attendance := listMaxZ actuals
      best_conversion_event := bestConvRow.name
      best_conversion_rate := round1 (convRate bestConvRow)
      events := details
      demographics :=
        match selfDemographics with
        | none => none
        | some l => if l.isEmpty then none else some (l.filter (fun kv => 0 < kv.2))
      engagement_score := none }
  { s0 with engagement_score := some (calculate_engagement_score f s0) }

/-- `prepare_data_summary`: on an empty dataframe the source raises while
formatting `df['Date'].min()` (there is no row to take a date from), modelled
as `none`. -/
def prepare_data_summary (f : ℚ → ℚ) (selfDemographics : Option (List (String × ℤ)))
    (df : List EventRow) : Option Summary :=
  if df.isEmpty then none else some (buildSummary f selfDemographics df)

/-! ## Predictions (`generate_predictions`, lines 311-339) -/

/-- Per-type prediction record. -/
structure Prediction where
  avg_attendance : ℚ
  attendance_rate : ℚ
  sample_size : ℕ
  min_attendance : ℤ
  max_attendance : ℤ
  avg_budget : Option ℚ
  avg_cost_per_attendee : Option ℚ
deriving DecidableEq, Repr

/-- `generate_predictions`: one record per distinct event type. -/
def generate_predictions (df : List EventRow) : List (String × Prediction) :=
  (uniqueTypes df).map
    (fun t =>
      let sub := df.filter (fun e => e.etype = t)
      let subActuals : List ℤ := sub.map (fun e => e.actual)
      let budgeted := sub.filter (fun e => e.budget.isSome)
      let budgetVals := sub.filterMap (fun e => e.budget)
      let hasBudget := !budgetVals.isEmpty
      (t,
        { avg_attendance := round0 (listMeanQ (subActuals.map (fun a => (a : ℚ))))
          attendance_rate :=
            round1 (((subActuals.sum : ℤ) : ℚ)
              / (((sub.map (fun e => e.expected)).sum : ℤ) : ℚ) * 100)
          sample_size := sub.length
          min_attendance := listMinZ subActuals
          max_attendance := listMaxZ subActuals
          avg_budget := if hasBudget then some (round2 (listMeanQ budgetVals)) else none
          avg_cost_per_attendee :=
            if hasBudget then
              some (round2 (budgetVals.sum / (((budgeted.map (fun e => e.actual)).sum : ℤ) : ℚ)))
            else none }))

/-! ## Result persistence and the run pipeline (lines 341-419) -/

/-- Python exceptions the modelled pipeline can raise. -/
inductive PyError where
  | typeError : PyError
  | valueError : PyError
deriving DecidableEq, Repr

/-- The JSON document `save_results` would write. -/
structure ResultDocument where
  timestamp : String
  org_name : String
  data_summary : Summary
  ai_insights : String
  predictions : List (String × Prediction)
  demographics : Option (List (String × ℤ))
  engagement_score : Option EngagementResult
deriving Repr

/-- Number of positional parameters (after `self`) required by
`calculate_engagement_score` (analyzer.py line 144: `df, summary`). -/
def calculate_engagement_score_paramCount : ℕ := 2

/-- Number of positional arguments `save_results` passes to
`calculate_engagement_score` (analyzer.py line 357: `(data_summary)`). -/
def save_results_argCount : ℕ := 1

/-- `save_results` (lines 341-370).  Before the output file is opened, line
357 invokes `calculate_engagement_score` with one positional argument while
its signature requires two, so Python raises `TypeError` and the function
never reaches the write at line 366.  The arity check makes that call
protocol explicit; the success branch is unreachable. -/
def save_results (f : ℚ → ℚ) (timestamp org insights : String)
    (predictions : List (String × Prediction)) (data_summary : Summary)
    (selfDemographics : Option (List (String × ℤ))) :
    Except PyError ResultDocument :=
  if save_results_argCount = calculate_engagement_score_paramCount then
    Except.ok
      { timestamp := timestamp
        org_name := org
        data_summary := data_summary
        ai_insights := insights
        predictions := predictions
        demographics := selfDemographics
        engagement_score := some (calculate_engagement_score f data_summary) }
  else Except.error PyError.typeError

/-- Outcome of one `run_analysis` invocation. -/
inductive RunOutcome where
  | dataUnavailable : RunOutcome
  | aiFailure : RunOutcome
  | crashed (e : PyError) : RunOutcome
  | savedOk (doc : ResultDocument) : RunOutcome
deriving Repr

/-- `run_analysis` (lines 372-419).  `load` is the result of
`load_event_data` (`none` on a missing dataset), `ai` the response of the
external text-generation collaborator (`none` when the call failed, in which
case line 404 returns before `save_results` is ever invoked). -/
def run_analysis (f : ℚ → ℚ) (selfDemographics : Option (List (String × ℤ)))
    (load : Option (List EventRow)) (ai : Option String)
    (timestamp org : String) : RunOutcome :=
  match load with
  | none => RunOutcome.dataUnavailable
  | some df =>
    match prepare_data_summary f selfDemographics df with
    | none => RunOutcome.crashed PyError.valueError
    | some s =>
      match ai with
      | none => RunOutcome.aiFailure
      | some insights =>
        match save_results f timestamp org insights (generate_predictions df) s
            selfDemographics with
        | Except.error e => RunOutcome.crashed e
        | Except.ok doc => RunOutcome.savedOk doc

/-! ## Shared concrete data for the verified scenarios -/

/-- A computable stand-in for `np.sqrt` (integer square root of the numerator,
used only where a concrete nonnegative square-root model is needed). -/
def npSqrtModel (q : ℚ) : ℚ := (Nat.sqrt q.num.toNat : ℚ)

/-- The three-event scenario of spec section 8: A (expected 100, actual 90,
budget 500), B (expected 200, actual 150, no budget), C (expected 50,
actual 50, budget 300). -/
def sampleEvents : List EventRow :=
  [ { name := "A", date := "2024-01-01", etype := "Cultural",
      expected := 100, actual := 90, budget := some 500 }
  , { name := "B", date := "2024-02-01", etype := "Cultural",
      expected := 200, actual := 150, budget := none }
  , { name := "C", date := "2024-03-01", etype := "Cultural",
      expected := 50, actual := 50, budget := some 300 } ]

/-- The summary the engine computes for `sampleEvents`. -/
def sampleSummary : Summary :=
  (prepare_data_summary npSqrtModel none sampleEvents).getD default

/-- An Attendee Data sheet with six classifiable cells. -/
def demoGrid6 : List (List Cell) :=
  [ [Cell.str "Freshman"], [Cell.str "freshman year"], [Cell.str "Freshman"]
  , [Cell.str "senior"], [Cell.str "Senior"], [Cell.str "junior"] ]

/-! ## Helper lemmas -/

/-- Mathlib `round` is monotone on `ℚ`. -/
theorem roundQ_mono {x y : ℚ} (h : x ≤ y) : round x ≤ round y := by
  rw [round_eq, round_eq]
  exact Int.floor_mono (by linarith)

/-- Rounding to one decimal preserves nonnegativity. -/
theorem round1_nonneg {q : ℚ} (h : 0 ≤ q) : 0 ≤ round1 q := by
  unfold round1
  have h1 : (0 : ℤ) ≤ round (q * 10) := by
    have := roundQ_mono (show (0 : ℚ) ≤ q * 10 by nlinarith)
    simpa using this
  have h2 : (0 : ℚ) ≤ (round (q * 10) : ℚ) := by exact_mod_cast h1
  positivity

/-- Rounding to one decimal preserves the upper bound 100. -/
theorem round1_le_100 {q : ℚ} (h : q ≤ 100) : round1 q ≤ 100 := by
  unfold round1
  have h1 : round (q * 10) ≤ (1000 : ℤ) := by
    have := roundQ_mono (show q * 10 ≤ (1000 : ℚ) by linarith)
    simpa using this
  have h2 : (round (q * 10) : ℚ) ≤ 1000 := by exact_mod_cast h1
  linarith

/-- Python `int()` of an integer-valued rational is that integer. -/
theorem pyInt_intCast (n : ℤ) : pyInt (n : ℚ) = n := by
  unfold pyInt
  rw [Rat.num_intCast, Rat.den_intCast]
  simp

/-- The mean of a list of nonnegative rationals is nonnegative. -/
theorem listMeanQ_nonneg {l : List ℚ} (h : ∀ x ∈ l, 0 ≤ x) : 0 ≤ listMeanQ l := by
  unfold listMeanQ
  exact div_nonneg (List.sum_nonneg h) (Nat.cast_nonneg _)

/-- The population variance is nonnegative. -/
theorem varianceQ_nonneg (l : List ℚ) : 0 ≤ varianceQ l := by
  unfold varianceQ
  apply listMeanQ_nonneg
  intro x hx
  rcases List.mem_map.mp hx with ⟨y, _, rfl⟩
  positivity

/-- Members of an insertion are the inserted element or old members. -/
theorem mem_insertByDate {x e : EventDetail} :
    ∀ {l : List EventDetail}, x ∈ insertByDate e l → x = e ∨ x ∈ l := by
  intro l
  induction l with
  | nil => intro h; simpa [insertByDate] using h
  | cons a as ih =>
    intro h
    unfold insertByDate at h
    split at h
    · rcases List.mem_cons.mp h with h1 | h1
      · exact Or.inr (List.mem_cons.mpr (Or.inl h1))
      · rcases ih h1 with h2 | h2
        · exact Or.inl h2
        · exact Or.inr (List.mem_cons.mpr (Or.inr h2))
    · rcases List.mem_cons.mp h with h1 | h1
      · exact Or.inl h1
      · exact Or.inr h1

/-- Members of the sorted list are members of the original list. -/
theorem mem_sortByDate {x : EventDetail} {l : List EventDetail}
    (h : x ∈ sortByDate l) : x ∈ l := by
  have main : ∀ (l acc : List EventDetail),
      x ∈ l.foldl (fun a e => insertByDate e a) acc → x ∈ l ∨ x ∈ acc := by
    intro l
    induction l with
    | nil => intro acc h1; exact Or.inr h1
    | cons a as ih =>
      intro acc h1
      rcases ih (insertByDate a acc) h1 with h2 | h2
      · exact Or.inl (List.mem_cons.mpr (Or.inr h2))
      · rcases mem_insertByDate h2 with h3 | h3
        · exact Or.inl (List.mem_cons.mpr (Or.inl h3))
        · exact Or.inr h3
  rcases main l [] h with h1 | h1
  · exact h1
  · simp at h1

/-- The attendance component stays within its 40-point cap for any
nonnegative rate. -/
theorem attendance_component_bounds (r : ℚ) :
    0 ≤ attendance_component r ∧ attendance_component r ≤ 40 := by
  unfold attendance_component
  split_ifs with h1 h2 h3
  · norm_num
  · simp only [not_le] at h1
    constructor <;> nlinarith
  · simp only [not_le] at h1 h2
    constructor <;> nlinarith
  · simp only [not_le] at h1 h2 h3
    constructor
    · exact le_max_left _ _
    · apply max_le (by norm_num)
      nlinarith

/-- The consistency component stays within its 20-point cap whenever the
square-root model is nonnegative on nonnegative arguments. -/
theorem consistency_component_bounds (f : ℚ → ℚ) (hf : ∀ q, 0 ≤ q → 0 ≤ f q)
    (rates : List ℚ) :
    0 ≤ consistency_component f rates ∧ consistency_component f rates ≤ 20 := by
  unfold consistency_component
  split_ifs
  · constructor
    · exact le_max_left _ _
    · apply max_le (by norm_num)
      have := hf _ (varianceQ_nonneg rates)
      linarith
  · norm_num

/-- The half-comparison stays within the 20-point cap for nonnegative mean
attendances. -/
theorem growth_from_avgs_bounds {a b : ℚ} (hb : 0 ≤ b) :
    0 ≤ growth_from_avgs a b ∧ growth_from_avgs a b ≤ 20 := by
  unfold growth_from_avgs
  split_ifs with h1 h2
  · have hp : 0 ≤ (b - a) / a * 100 := by
      apply mul_nonneg _ (by norm_num)
      exact div_nonneg (by linarith) (le_of_lt h2)
    constructor
    · exact le_min (by norm_num) (by nlinarith)
    · exact min_le_left _ _
  · constructor
    · exact le_min (by norm_num) (by norm_num)
    · exact min_le_left _ _
  · simp only [not_le] at h1
    have haz : 0 < a := lt_of_le_of_lt hb h1
    have hp : 0 ≤ (a - b) / a * 100 := by
      apply mul_nonneg _ (by norm_num)
      exact div_nonneg (by linarith) (le_of_lt haz)
    constructor
    · exact le_max_left _ _
    · apply max_le (by norm_num)
      nlinarith

/-- The growth component stays within its 20-point cap when every event in
the (sorted) list has nonnegative actual attendance. -/
theorem growth_component_bounds {l : List EventDetail}
    (h : ∀ e ∈ l, 0 ≤ e.actual) :
    0 ≤ growth_component l ∧ growth_component l ≤ 20 := by
  unfold growth_component
  split_ifs
  · apply growth_from_avgs_bounds
    apply listMeanQ_nonneg
    intro x hx
    rcases List.mem_map.mp hx with ⟨e, he, rfl⟩
    exact_mod_cast h e (List.mem_of_mem_drop he)
  · norm_num

/-- The efficiency component stays within its 20-point cap. -/
theorem efficiency_component_bounds (c : ℚ) :
    0 ≤ efficiency_component c ∧ efficiency_component c ≤ 20 := by
  unfold efficiency_component
  split_ifs with h1 h2 h3 h4
  · norm_num
  · norm_num
  · norm_num
  · norm_num
  · simp only [not_le] at h4
    constructor
    · exact le_max_left _ _
    · apply max_le (by norm_num)
      nlinarith

/-- The efficiency addend of the score stays within its 20-point cap for any
summary. -/
theorem efficiency_score_bounds (s : Summary) :
    0 ≤ efficiency_score s ∧ efficiency_score s ≤ 20 := by
  unfold efficiency_score
  rcases s.cost_per_attendee with _ | cpa
  · norm_num
  · dsimp only
    split_ifs
    · exact efficiency_component_bounds cpa
    · norm_num


/-- Characterisation of `round` by the two inequalities of its value. -/
theorem roundQ_eq (q : ℚ) (n : ℤ) (h1 : (n : ℚ) ≤ q + 1 / 2)
    (h2 : q + 1 / 2 < (n : ℚ) + 1) : round q = n := by
  rw [round_eq]
  exact Int.floor_eq_iff.mpr ⟨h1, h2⟩

/-- Evaluation rule for rounding to one decimal. -/
theorem round1_eval (q : ℚ) (n : ℤ) (h1 : (n : ℚ) ≤ q * 10 + 1 / 2)
    (h2 : q * 10 + 1 / 2 < (n : ℚ) + 1) : round1 q = (n : ℚ) / 10 := by
  unfold round1
  rw [roundQ_eq (q * 10) n h1 h2]

/-- Evaluation rule for rounding to two decimals. -/
theorem round2_eval (q : ℚ) (n : ℤ) (h1 : (n : ℚ) ≤ q * 100 + 1 / 2)
    (h2 : q * 100 + 1 / 2 < (n : ℚ) + 1) : round2 q = (n : ℚ) / 100 := by
  unfold round2
  rw [roundQ_eq (q * 100) n h1 h2]

/-! ## Claim theorems -/

/-- Claim C9: the efficiency component is not monotone non-increasing in
cost-per-attendee: at cost 20 it scores 10, at cost 21 the fallthrough
formula gives max(0, 20 - 21 x 0.3) = 13.7, so a strictly larger
cost-per-attendee can score strictly higher. -/
theorem efficiency_component_not_monotone :
    efficiency_component 20 = 10 ∧ efficiency_component 21 = 13.7 ∧
    ∃ c1 c2 : ℚ, 0 < c1 ∧ c1 < c2 ∧
      efficiency_component c1 < efficiency_component c2 := by
  refine ⟨by norm_num [efficiency_component], by norm_num [efficiency_component, max_def],
    20, 21, by norm_num, by norm_num, by norm_num [efficiency_component, max_def]⟩

/-- Claim C3: on the three-event scenario (A: 100 expected / 90 actual with
budget 500, B: 200/150 without budget, C: 50/50 with budget 300) the summary
has total_events 3, total_attendees 290, total_registered 350, attendance
rate 82.9, total budget 800, cost per attendee 2.76, best performing event B
(maximum actual attendance, first occurrence winning ties) and best
conversion event C with rate 100.0 (maximum per-event rate actual/expected
x 100, selected independently). -/
theorem prepare_summary_three_event_scenario (f : ℚ → ℚ) :
    ((prepare_data_summary f none sampleEvents).map (fun s => s.total_events)
        = some 3) ∧
    ((prepare_data_summary f none sampleEvents).map (fun s => s.total_attendees)
        = some 290) ∧
    ((prepare_data_summary f none sampleEvents).map (fun s => s.total_registered)
        = some 350) ∧
    ((prepare_data_summary f none sampleEvents).map (fun s => s.attendance_rate)
        = some (829 / 10)) ∧
    ((prepare_data_summary f none sampleEvents).map (fun s => s.total_budget)
        = some (some 800)) ∧
    ((prepare_data_summary f none sampleEvents).map (fun s => s.cost_per_attendee)
        = some (some (276 / 100))) ∧
    ((prepare_data_summary f none sampleEvents).map (fun s => s.best_performing_event)
        = some "B") ∧
    ((prepare_data_summary f none sampleEvents).map (fun s => s.best_conversion_event)
        = some "C") ∧
    ((prepare_data_summary f none sampleEvents).map (fun s => s.best_conversion_rate)
        = some 100) := by
  have harg : argmaxFirst (fun (e : EventRow) => (e.actual : ℚ) / (e.expected : ℚ) * 100)
      sampleEvents
      = some { name := "C", date := "2024-03-01", etype := "Cultural",
               expected := 50, actual := 50, budget := some 300 } := by
    simp only [sampleEvents, argmaxFirst, List.foldl]
    norm_num
  refine ⟨rfl, rfl, rfl, ?_, ?_, ?_, rfl, ?_, ?_⟩
  · have h : (prepare_data_summary f none sampleEvents).map (fun s => s.attendance_rate)
        = some (round1 (((290 : ℤ) : ℚ) / ((350 : ℤ) : ℚ) * 100)) := rfl
    rw [h, round1_eval (((290 : ℤ) : ℚ) / ((350 : ℤ) : ℚ) * 100) 829
      (by push_cast; norm_num) (by push_cast; norm_num)]
    norm_num
  · have h : (prepare_data_summary f none sampleEvents).map (fun s => s.total_budget)
        = some (some (round2 ((500 : ℚ) + (300 + 0)))) := rfl
    rw [h, round2_eval ((500 : ℚ) + (300 + 0)) 80000 (by norm_num) (by norm_num)]
    norm_num
  · have h : (prepare_data_summary f none sampleEvents).map (fun s => s.cost_per_attendee)
        = some (some (round2 (((500 : ℚ) + (300 + 0)) / ((290 : ℤ) : ℚ)))) := rfl
    rw [h, round2_eval (((500 : ℚ) + (300 + 0)) / ((290 : ℤ) : ℚ)) 276
      (by push_cast; norm_num) (by push_cast; norm_num)]
    norm_num
  · have h : (prepare_data_summary f none sampleEvents).map (fun s => s.best_conversion_event)
        = some (((argmaxFirst (fun (e : EventRow) => (e.actual : ℚ) / (e.expected : ℚ) * 100)
            sampleEvents).getD default).name) := rfl
    rw [h, harg]
    rfl
  · have h : (prepare_data_summary f none sampleEvents).map (fun s => s.best_conversion_rate)
        = some (round1 ((((argmaxFirst (fun (e : EventRow) =>
            (e.actual : ℚ) / (e.expected : ℚ) * 100) sampleEvents).getD default).actual : ℚ)
            / (((argmaxFirst (fun (e : EventRow) => (e.actual : ℚ) / (e.expected : ℚ) * 100)
            sampleEvents).getD default).expected : ℚ) * 100)) := rfl
    rw [h, harg]
    simp only [Option.getD]
    rw [round1_eval (((50 : ℤ) : ℚ) / ((50 : ℤ) : ℚ) * 100) 1000
      (by push_cast; norm_num) (by push_cast; norm_num)]
    norm_num

/-- Claim C8: every workbook without a recoverable event name is excluded
from the normalized dataset, so the output count never exceeds the workbook
count; in particular an Overview sheet whose only text cell is the literal
"Event" yields no name (the name-exclusion rule rejects cells containing
"Event") and that workbook is dropped. -/
theorem nameless_workbook_dropped :
    (∀ ws : List Workbook, (extract_all_events ws).length ≤ ws.length) ∧
    extract_event_name [[Cell.str "Event"]] = none ∧
    extract_all_events
      [{ overview := some [[Cell.str "Event"]], rsvp := none, budget := none,
         attendee := none }] = [] := by
  refine ⟨fun ws => List.length_filterMap_le _ _, by decide, by decide⟩

/-- Position of a grade in the ascending grade ladder. -/
def gradeRank (g : String) : ℕ :=
  ["D", "C-", "C", "C+", "B-", "B", "B+", "A-", "A", "A+"].indexOf g

/-- Value of the grade ladder position as a sum of threshold indicators. -/
theorem gradeRank_determine_grade (u : ℚ) :
    gradeRank (determine_grade u) =
      (if (50 : ℚ) ≤ u then (1 : ℕ) else 0)
        + (if (55 : ℚ) ≤ u then 1 else 0)
        + (if (60 : ℚ) ≤ u then 1 else 0)
        + (if (65 : ℚ) ≤ u then 1 else 0)
        + (if (70 : ℚ) ≤ u then 1 else 0)
        + (if (75 : ℚ) ≤ u then 1 else 0)
        + (if (80 : ℚ) ≤ u then 1 else 0)
        + (if (85 : ℚ) ≤ u then 1 else 0)
        + (if (90 : ℚ) ≤ u then 1 else 0) := by
  unfold determine_grade
  rcases le_or_lt 90 u with h90 | h90
  ·
    have p50 : ((50 : ℚ) ≤ u) = True := eq_true (by linarith)
    have p55 : ((55 : ℚ) ≤ u) = True := eq_true (by linarith)
    have p60 : ((60 : ℚ) ≤ u) = True := eq_true (by linarith)
    have p65 : ((65 : ℚ) ≤ u) = True := eq_true (by linarith)
    have p70 : ((70 : ℚ) ≤ u) = True := eq_true (by linarith)
    have p75 : ((75 : ℚ) ≤ u) = True := eq_true (by linarith)
    have p80 : ((80 : ℚ) ≤ u) = True := eq_true (by linarith)
    have p85 : ((85 : ℚ) ≤ u) = True := eq_true (by linarith)
    have p90 : ((90 : ℚ) ≤ u) = True := eq_true h90
    simp only [p50, p55, p60, p65, p70, p75, p80, p85, p90, if_true, if_false]
    decide
  ·
    rcases le_or_lt 85 u with h85 | h85
    ·
      have p50 : ((50 : ℚ) ≤ u) = True := eq_true (by linarith)
      have p55 : ((55 : ℚ) ≤ u) = True := eq_true (by linarith)
      have p60 : ((60 : ℚ) ≤ u) = True := eq_true (by linarith)
      have p65 : ((65 : ℚ) ≤ u) = True := eq_true (by linarith)
      have p70 : ((70 : ℚ) ≤ u) = True := eq_true (by linarith)
      have p75 : ((75 : ℚ) ≤ u) = True := eq_true (by linarith)
      have p80 : ((80 : ℚ) ≤ u) = True := eq_true (by linarith)
      have p85 : ((85 : ℚ) ≤ u) = True := eq_true h85
      have n90 : ((90 : ℚ) ≤ u) = False := eq_false (not_le.mpr h90)
      simp only [p50, p55, p60, p65, p70, p75, p80, p85, n90, if_true, if_false]
      decide
    ·
      rcases le_or_lt 80 u with h80 | h80
      ·
        have p50 : ((50 : ℚ) ≤ u) = True := eq_true (by linarith)
        have p55 : ((55 : ℚ) ≤ u) = True := eq_true (by linarith)
        have p60 : ((60 : ℚ) ≤ u) = True := eq_true (by linarith)
        have p65 : ((65 : ℚ) ≤ u) = True := eq_true (by linarith)
        have p70 : ((70 : ℚ) ≤ u) = True := eq_true (by linarith)
        have p75 : ((75 : ℚ) ≤ u) = True := eq_true (by linarith)
        have p80 : ((80 : ℚ) ≤ u) = True := eq_true h80
        have n85 : ((85 : ℚ) ≤ u) = False := eq_false (not_le.mpr h85)
        have n90 : ((90 : ℚ) ≤ u) = False := eq_false (not_le.mpr h90)
        simp only [p50, p55, p60, p65, p70, p75, p80, n85, n90, if_true, if_false]
        decide
      ·
        rcases le_or_lt 75 u with h75 | h75
        ·
          have p50 : ((50 : ℚ) ≤ u) = True := eq_true (by linarith)
          have p55 : ((55 : ℚ) ≤ u) = True := eq_true (by linarith)
          have p60 : ((60 : ℚ) ≤ u) = True := eq_true (by linarith)
          have p65 : ((65 : ℚ) ≤ u) = True := eq_true (by linarith)
          have p70 : ((70 : ℚ) ≤ u) = True := eq_true (by linarith)
          have p75 : ((75 : ℚ) ≤ u) = True := eq_true h75
          have n80 : ((80 : ℚ) ≤ u) = False := eq_false (not_le.mpr h80)
          have n85 : ((85 : ℚ) ≤ u) = False := eq_false (not_le.mpr h85)
          have n90 : ((90 : ℚ) ≤ u) = False := eq_false (not_le.mpr h90)
          simp only [p50, p55, p60, p65, p70, p75, n80, n85, n90, if_true, if_false]
          decide
        ·
          rcases le_or_lt 70 u with h70 | h70
          ·
            have p50 : ((50 : ℚ) ≤ u) = True := eq_true (by linarith)
            have p55 : ((55 : ℚ) ≤ u) = True := eq_true (by linarith)
            have p60 : ((60 : ℚ) ≤ u) = True := eq_true (by linarith)
            have p65 : ((65 : ℚ) ≤ u) = True := eq_true (by linarith)
            have p70 : ((70 : ℚ) ≤ u) = True := eq_true h70
            have n75 : ((75 : ℚ) ≤ u) = False := eq_false (not_le.mpr h75)
            have n80 : ((80 : ℚ) ≤ u) = False := eq_false (not_le.mpr h80)
            have n85 : ((85 : ℚ) ≤ u) = False := eq_false (not_le.mpr h85)
            have n90 : ((90 : ℚ) ≤ u) = False := eq_false (not_le.mpr h90)
            simp only [p50, p55, p60, p65, p70, n75, n80, n85, n90, if_true, if_false]
            decide
          ·
            rcases le_or_lt 65 u with h65 | h65
            ·
              have p50 : ((50 : ℚ) ≤ u) = True := eq_true (by linarith)
              have p55 : ((55 : ℚ) ≤ u) = True := eq_true (by linarith)
              have p60 : ((60 : ℚ) ≤ u) = True := eq_true (by linarith)
              have p65 : ((65 : ℚ) ≤ u) = True := eq_true h65
              have n70 : ((70 : ℚ) ≤ u) = False := eq_false (not_le.mpr h70)
              have n75 : ((75 : ℚ) ≤ u) = False := eq_false (not_le.mpr h75)
              have n80 : ((80 : ℚ) ≤ u) = False := eq_false (not_le.mpr h80)
              have n85 : ((85 : ℚ) ≤ u) = False := eq_false (not_le.mpr h85)
              have n90 : ((90 : ℚ) ≤ u) = False := eq_false (not_le.mpr h90)
              simp only [p50, p55, p60, p65, n70, n75, n80, n85, n90, if_true, if_false]
              decide
            ·
              rcases le_or_lt 60 u with h60 | h60
              ·
                have p50 : ((50 : ℚ) ≤ u) = True := eq_true (by linarith)
                have p55 : ((55 : ℚ) ≤ u) = True := eq_true (by linarith)
                have p60 : ((60 : ℚ) ≤ u) = True := eq_true h60
                have n65 : ((65 : ℚ) ≤ u) = False := eq_false (not_le.mpr h65)
                have n70 : ((70 : ℚ) ≤ u) = False := eq_false (not_le.mpr h70)
                have n75 : ((75 : ℚ) ≤ u) = False := eq_false (not_le.mpr h75)
                have n80 : ((80 : ℚ) ≤ u) = False := eq_false (not_le.mpr h80)
                have n85 : ((85 : ℚ) ≤ u) = False := eq_false (not_le.mpr h85)
                have n90 : ((90 : ℚ) ≤ u) = False := eq_false (not_le.mpr h90)
                simp only [p50, p55, p60, n65, n70, n75, n80, n85, n90, if_true, if_false]
                decide
              ·
                rcases le_or_lt 55 u with h55 | h55
                ·
                  have p50 : ((50 : ℚ) ≤ u) = True := eq_true (by linarith)
                  have p55 : ((55 : ℚ) ≤ u) = True := eq_true h55
                  have n60 : ((60 : ℚ) ≤ u) = False := eq_false (not_le.mpr h60)
                  have n65 : ((65 : ℚ) ≤ u) = False := eq_false (not_le.mpr h65)
                  have n70 : ((70 : ℚ) ≤ u) = False := eq_false (not_le.mpr h70)
                  have n75 : ((75 : ℚ) ≤ u) = False := eq_false (not_le.mpr h75)
                  have n80 : ((80 : ℚ) ≤ u) = False := eq_false (not_le.mpr h80)
                  have n85 : ((85 : ℚ) ≤ u) = False := eq_false (not_le.mpr h85)
                  have n90 : ((90 : ℚ) ≤ u) = False := eq_false (not_le.mpr h90)
                  simp only [p50, p55, n60, n65, n70, n75, n80, n85, n90, if_true, if_false]
                  decide
                ·
                  rcases le_or_lt 50 u with h50 | h50
                  ·
                    have p50 : ((50 : ℚ) ≤ u) = True := eq_true h50
                    have n55 : ((55 : ℚ) ≤ u) = False := eq_false (not_le.mpr h55)
                    have n60 : ((60 : ℚ) ≤ u) = False := eq_false (not_le.mpr h60)
                    have n65 : ((65 : ℚ) ≤ u) = False := eq_false (not_le.mpr h65)
                    have n70 : ((70 : ℚ) ≤ u) = False := eq_false (not_le.mpr h70)
                    have n75 : ((75 : ℚ) ≤ u) = False := eq_false (not_le.mpr h75)
                    have n80 : ((80 : ℚ) ≤ u) = False := eq_false (not_le.mpr h80)
                    have n85 : ((85 : ℚ) ≤ u) = False := eq_false (not_le.mpr h85)
                    have n90 : ((90 : ℚ) ≤ u) = False := eq_false (not_le.mpr h90)
                    simp only [p50, n55, n60, n65, n70, n75, n80, n85, n90, if_true, if_false]
                    decide
                  ·
                    have n50 : ((50 : ℚ) ≤ u) = False := eq_false (not_le.mpr h50)
                    have n55 : ((55 : ℚ) ≤ u) = False := eq_false (not_le.mpr h55)
                    have n60 : ((60 : ℚ) ≤ u) = False := eq_false (not_le.mpr h60)
                    have n65 : ((65 : ℚ) ≤ u) = False := eq_false (not_le.mpr h65)
                    have n70 : ((70 : ℚ) ≤ u) = False := eq_false (not_le.mpr h70)
                    have n75 : ((75 : ℚ) ≤ u) = False := eq_false (not_le.mpr h75)
                    have n80 : ((80 : ℚ) ≤ u) = False := eq_false (not_le.mpr h80)
                    have n85 : ((85 : ℚ) ≤ u) = False := eq_false (not_le.mpr h85)
                    have n90 : ((90 : ℚ) ≤ u) = False := eq_false (not_le.mpr h90)
                    simp only [n50, n55, n60, n65, n70, n75, n80, n85, n90, if_false]
                    decide

/-- A threshold indicator is monotone in the score. -/
theorem threshold_indicator_mono {s t : ℚ} (hst : s ≤ t) (c : ℚ) :
    (if c ≤ s then (1 : ℕ) else 0) ≤ (if c ≤ t then 1 else 0) := by
  split_ifs with h1 h2
  · exact le_refl 1
  · exact absurd (le_trans h1 hst) h2
  · omega
  · omega

/-- Claim C4: grade assignment is a pure, deterministic, monotone
non-decreasing step function of the score with inclusive lower bounds:
every boundary value receives the documented grade and the value one unit
below it receives the next lower grade. -/
theorem determine_grade_step_function :
    (∀ s t : ℚ, s ≤ t → gradeRank (determine_grade s) ≤ gradeRank (determine_grade t)) ∧
    determine_grade 90 = "A+" ∧ determine_grade 89 = "A" ∧
    determine_grade 85 = "A" ∧ determine_grade 84 = "A-" ∧
    determine_grade 80 = "A-" ∧ determine_grade 79 = "B+" ∧
    determine_grade 75 = "B+" ∧ determine_grade 74 = "B" ∧
    determine_grade 70 = "B" ∧ determine_grade 69 = "B-" ∧
    determine_grade 65 = "B-" ∧ determine_grade 64 = "C+" ∧
    determine_grade 60 = "C+" ∧ determine_grade 59 = "C" ∧
    determine_grade 55 = "C" ∧ determine_grade 54 = "C-" ∧
    determine_grade 50 = "C-" ∧ determine_grade 49 = "D" := by
  constructor
  · intro s t hst
    rw [gradeRank_determine_grade s, gradeRank_determine_grade t]
    exact add_le_add (add_le_add (add_le_add (add_le_add (add_le_add (add_le_add
      (add_le_add (add_le_add (threshold_indicator_mono hst 50)
      (threshold_indicator_mono hst 55)) (threshold_indicator_mono hst 60))
      (threshold_indicator_mono hst 65)) (threshold_indicator_mono hst 70))
      (threshold_indicator_mono hst 75)) (threshold_indicator_mono hst 80))
      (threshold_indicator_mono hst 85)) (threshold_indicator_mono hst 90)
  · refine ⟨?_, ?_, ?_, ?_, ?_, ?_, ?_, ?_, ?_, ?_, ?_, ?_, ?_, ?_, ?_, ?_, ?_, ?_⟩ <;>
      decide

/-- Witness for C4 at a concrete pair of scores. -/
theorem determine_grade_step_function_witness :
    gradeRank (determine_grade 42) ≤ gradeRank (determine_grade 87) :=
  determine_grade_step_function.1 42 87 (by norm_num)

/-- Claim C6: a cell containing "Raw Tickets" extracts the two cells to its
right as expected and actual attendance and overwrites values previously set
by the TOTAL/RSVP rule, with last-match-wins semantics in row-major scan
order over both rules (a later TOTAL/RSVP match likewise overwrites an
earlier Raw Tickets match). -/
theorem raw_tickets_overwrites_total_rsvp (a b c d : ℤ) :
    scanRSVP [[Cell.str "TOTAL RSVPs", iCell a, iCell b,
        Cell.str "Raw Tickets", iCell c, iCell d]] = (some c, some d) ∧
    scanRSVP [[Cell.str "TOTAL RSVPs", iCell a, iCell b],
        [Cell.str "Raw Tickets", iCell c, iCell d]] = (some c, some d) ∧
    scanRSVP [[Cell.str "Raw Tickets", iCell c, iCell d],
        [Cell.str "TOTAL RSVPs", iCell a, iCell b]] = (some a, some b) := by
  refine ⟨?_, ?_, ?_⟩
  · have h : scanRSVP [[Cell.str "TOTAL RSVPs", iCell a, iCell b,
        Cell.str "Raw Tickets", iCell c, iCell d]]
        = (some (pyInt (c : ℚ)), some (pyInt (d : ℚ))) := rfl
    rw [h, pyInt_intCast, pyInt_intCast]
  · have h : scanRSVP [[Cell.str "TOTAL RSVPs", iCell a, iCell b],
        [Cell.str "Raw Tickets", iCell c, iCell d]]
        = (some (pyInt (c : ℚ)), some (pyInt (d : ℚ))) := rfl
    rw [h, pyInt_intCast, pyInt_intCast]
  · have h : scanRSVP [[Cell.str "Raw Tickets", iCell c, iCell d],
        [Cell.str "TOTAL RSVPs", iCell a, iCell b]]
        = (some (pyInt (a : ℚ)), some (pyInt (b : ℚ))) := rfl
    rw [h, pyInt_intCast, pyInt_intCast]

/-- Claim C7: the budget scan takes, for the first label cell (containing
"Overall Total" or uppercase "TOTAL") followed within the next 4 cells by a
numeric value strictly greater than 100, that first qualifying value; values
of at most 100 are rejected, a value 5 cells away is out of the window, a
label without a qualifying value does not block a later label, and once a
total is found later labels are ignored. -/
theorem budget_scan_rules (v : ℚ) (hv : 100 < v) :
    extract_budget_data [[Cell.str "Overall Total", Cell.num 50, Cell.num v,
        Cell.str "TOTAL", Cell.num 999]] = some v ∧
    extract_budget_data [[Cell.str "TOTAL", Cell.empty, Cell.empty, Cell.empty,
        Cell.empty, Cell.num 500]] = none ∧
    extract_budget_data [[Cell.str "Overall Total", Cell.num 100]] = none ∧
    extract_budget_data [[Cell.str "Subtotal x", Cell.num 200],
        [Cell.str "TOTAL", Cell.num 300]] = some 200 ∧
    extract_budget_data [[Cell.str "Overall Total", Cell.str "x"],
        [Cell.str "TOTAL", Cell.num 150]] = some 150 := by
  refine ⟨?_, by decide, by decide, by decide, by decide⟩
  have hb : firstBudgetVal [Cell.num 50, Cell.num v, Cell.str "TOTAL", Cell.num 999]
      = some v := by
    simp only [firstBudgetVal]
    rw [if_neg (by norm_num : ¬ (100 : ℚ) < 50), if_pos hv]
  have hlab : isBudgetLabel (Cell.str "Overall Total") = true := by decide
  simp only [extract_budget_data, List.foldl, budgetRowScan, List.take, hlab, if_true]
  rw [hb]

/-- Witness for C7 at the concrete value 200. -/
theorem budget_scan_rules_witness :
    extract_budget_data [[Cell.str "Overall Total", Cell.num 50, Cell.num 200,
        Cell.str "TOTAL", Cell.num 999]] = some 200 ∧
    extract_budget_data [[Cell.str "TOTAL", Cell.empty, Cell.empty, Cell.empty,
        Cell.empty, Cell.num 500]] = none ∧
    extract_budget_data [[Cell.str "Overall Total", Cell.num 100]] = none ∧
    extract_budget_data [[Cell.str "Subtotal x", Cell.num 200],
        [Cell.str "TOTAL", Cell.num 300]] = some 200 ∧
    extract_budget_data [[Cell.str "Overall Total", Cell.str "x"],
        [Cell.str "TOTAL", Cell.num 150]] = some 150 :=
  budget_scan_rules 200 (by norm_num)

/-- Claim C10: whenever `extract_demographics` returns a mapping, the count
for the "Other" category is exactly zero: no branch of the classification
chain ever increments it. -/
theorem demographics_other_always_zero (g : List (List Cell)) (d : Demographics)
    (h : extract_demographics g = some d) : d.other = 0 := by
  have step_other : ∀ (d0 : Demographics) (c : Cell),
      (demoStep d0 c).other = d0.other := by
    intro d0 c
    unfold demoStep
    dsimp only
    split_ifs <;> rfl
  have row_other : ∀ (row : List Cell) (d0 : Demographics),
      (row.foldl demoStep d0).other = d0.other := by
    intro row
    induction row with
    | nil => intro d0; rfl
    | cons c cs ih =>
      intro d0
      simp only [List.foldl]
      rw [ih, step_other]
  have grid_aux : ∀ (gs : List (List Cell)) (d0 : Demographics),
      (gs.foldl (fun d1 row => row.foldl demoStep d1) d0).other = d0.other := by
    intro gs
    induction gs with
    | nil => intro d0; rfl
    | cons r rs ih =>
      intro d0
      simp only [List.foldl]
      rw [ih, row_other]
  have grid_other : (demoScanGrid g).other = 0 := grid_aux g demInit
  unfold extract_demographics at h
  split_ifs at h
  rw [← Option.some.inj h]
  exact grid_other

/-- Witness for C10 on a concrete Attendee Data sheet with six classified
cells. -/
theorem demographics_other_always_zero_witness :
    extract_demographics demoGrid6
        = some { freshman := 3, sophomore := 0, junior := 1, senior := 2,
                 graduate := 0, alumni := 0, other := 0 } ∧
    ({ freshman := 3, sophomore := 0, junior := 1, senior := 2,
       graduate := 0, alumni := 0, other := 0 } : Demographics).other = 0 :=
  ⟨rfl, demographics_other_always_zero demoGrid6 _ rfl⟩

/-- Claim C1 (code bug): `save_results` never completes.  Line 357 of
analyzer.py calls `calculate_engagement_score` with one positional argument
where its signature requires two, raising `TypeError` before the output file
is opened; consequently even a fully successful run (dataset loaded, AI
narrative returned) crashes instead of persisting a ResultDocument. -/
theorem save_results_never_completes :
    (∀ (f : ℚ → ℚ) (t o i : String) (p : List (String × Prediction)) (s : Summary)
        (demo : Option (List (String × ℤ))),
      save_results f t o i p s demo = Except.error PyError.typeError) ∧
    run_analysis (fun _ => 0) none (some sampleEvents) (some "narrative")
        "2026-01-01T00:00:00" "Org" = RunOutcome.crashed PyError.typeError := by
  constructor
  · intro f t o i p s demo
    rfl
  · rfl

/-- Claim C5: if the external text-generation call fails (no narrative), the
run aborts with that failure surfaced and `save_results` is never reached:
the outcome is `aiFailure` whenever the summary was prepared, and no run
without a narrative ever ends in a persisted result document. -/
theorem ai_failure_aborts_without_save :
    (∀ (f : ℚ → ℚ) (demo : Option (List (String × ℤ))) (df : List EventRow)
        (s : Summary) (t o : String),
      prepare_data_summary f demo df = some s →
        run_analysis f demo (some df) none t o = RunOutcome.aiFailure) ∧
    (∀ (f : ℚ → ℚ) (demo : Option (List (String × ℤ)))
        (load : Option (List EventRow)) (t o : String) (doc : ResultDocument),
      run_analysis f demo load none t o ≠ RunOutcome.savedOk doc) := by
  constructor
  · intro f demo df s t o hs
    simp only [run_analysis, hs]
  · intro f demo load t o doc
    cases load with
    | none => simp [run_analysis]
    | some df =>
      cases hp : prepare_data_summary f demo df with
      | none => simp [run_analysis, hp]
      | some s => simp [run_analysis, hp]

/-- Witness for C5 on the three-event scenario. -/
theorem ai_failure_aborts_without_save_witness :
    run_analysis npSqrtModel none (some sampleEvents) none "2026-01-01T00:00:00" "Org"
      = RunOutcome.aiFailure :=
  ai_failure_aborts_without_save.1 npSqrtModel none sampleEvents sampleSummary
    "2026-01-01T00:00:00" "Org" rfl

/-- The component and total bounds asserted for the engagement score: the
attendance addend lies in [0, 40], the consistency, growth and efficiency
addends each lie in [0, 20], and the returned score is the one-decimal
rounding of their plain sum (no further clamping), lying in [0, 100]. -/
def EngagementBounds (f : ℚ → ℚ) (s : Summary) : Prop :=
  0 ≤ attendance_score s ∧ attendance_score s ≤ 40 ∧
  0 ≤ consistency_score f s ∧ consistency_score f s ≤ 20 ∧
  0 ≤ growth_score s ∧ growth_score s ≤ 20 ∧
  0 ≤ efficiency_score s ∧ efficiency_score s ≤ 20 ∧
  (calculate_engagement_score f s).score
    = round1 (attendance_score s + consistency_score f s + growth_score s
        + efficiency_score s) ∧
  0 ≤ (calculate_engagement_score f s).score ∧
  (calculate_engagement_score f s).score ≤ 100

/-- Claim C2: for every valid dataset (nonempty, positive total expected
attendance, nonnegative actual attendances, as the data model requires) and
any nonnegativity-preserving square-root model, the summary produced by
`prepare_data_summary` satisfies all engagement-score bounds. -/
theorem engagement_score_within_bounds (f : ℚ → ℚ)
    (hf : ∀ q, 0 ≤ q → 0 ≤ f q)
    (demo : Option (List (String × ℤ))) (df : List EventRow)
    (hne : df ≠ []) (hact : ∀ e ∈ df, 0 ≤ e.actual)
    (hexp : 0 < (df.map (fun e => e.expected)).sum)
    (s : Summary) (hs : prepare_data_summary f demo df = some s) :
    EngagementBounds f s := by
  have hE : df.isEmpty = false := by
    cases df
    · exact absurd rfl hne
    · rfl
  have hs2 : buildSummary f demo df = s := by
    unfold prepare_data_summary at hs
    rw [hE] at hs
    simpa using hs
  subst hs2
  obtain ⟨hA0, hA40⟩ :=
    attendance_component_bounds ((buildSummary f demo df).attendance_rate)
  obtain ⟨hC0, hC20⟩ := consistency_component_bounds f hf
    ((buildSummary f demo df).events.map (fun e => e.attendance_rate))
  have hacts : ∀ e ∈ sortByDate (buildSummary f demo df).events, 0 ≤ e.actual := by
    intro e he
    have he2 : e ∈ (buildSummary f demo df).events := mem_sortByDate he
    have he3 : e ∈ df.map eventDetailOf := he2
    rcases List.mem_map.mp he3 with ⟨x, hx, rfl⟩
    exact hact x hx
  obtain ⟨hG0, hG20⟩ := growth_component_bounds hacts
  obtain ⟨hE0, hE20⟩ := efficiency_score_bounds (buildSummary f demo df)
  unfold EngagementBounds
  refine ⟨hA0, hA40, hC0, hC20, hG0, hG20, hE0, hE20, rfl, ?_, ?_⟩
  · exact round1_nonneg (by
      unfold attendance_score consistency_score growth_score at *
      linarith)
  · exact round1_le_100 (by
      unfold attendance_score consistency_score growth_score at *
      linarith)

/-- Witness for C2 on the three-event scenario with the integer square-root
model of `np.sqrt`. -/
theorem engagement_score_within_bounds_witness :
    EngagementBounds npSqrtModel sampleSummary :=
  engagement_score_within_bounds npSqrtModel
    (fun q _ => Nat.cast_nonneg _)
    none sampleEvents (by decide) (by decide) (by decide)
    sampleSummary rfl
